import Mathlib

/-!
Shallow embedding of the subscription subsystem of rust-oracle
(`src/subscr/mod.rs`, `src/subscr/cqn.rs`, `src/subscr/aq.rs`) and proofs
about its behaviour.

Foreign pointers are modelled as `Option` values (`none` is the null
pointer); a pointer-plus-count array is modelled as an index function
`Nat → α` together with the count; length-prefixed strings are modelled as
`String` directly (the `to_cow_str` transcoding is orthogonal to every
property below).  A Rust panic is modelled as the `none` case of an
`Option` result.  Calls into the external ODPI-C library are modelled by
passing their outcomes as explicit parameters and recording the calls and
the memory-management steps in an action trace.
-/

namespace RustOracle

/-- Numeric constants of the ODPI-C `binding` module (the `dpi*` enums used
by `src/subscr`); values are those of ODPI-C's `dpi.h`. -/
def DPI_SUBSCR_NAMESPACE_AQ : Nat := 1

/-- ODPI-C namespace code for continuous-query (database change) notification. -/
def DPI_SUBSCR_NAMESPACE_DBCHANGE : Nat := 2

/-- ODPI-C protocol code: in-process callback delivery. -/
def DPI_SUBSCR_PROTO_CALLBACK : Nat := 0

/-- ODPI-C protocol code: notification by mail. -/
def DPI_SUBSCR_PROTO_MAIL : Nat := 1

/-- ODPI-C protocol code: notification to a PL/SQL procedure. -/
def DPI_SUBSCR_PROTO_PLSQL : Nat := 2

/-- ODPI-C protocol code: notification to an HTTP endpoint. -/
def DPI_SUBSCR_PROTO_HTTP : Nat := 3

/-- ODPI-C event type codes (`dpiEventType`). -/
def DPI_EVENT_STARTUP : Nat := 1

/-- ODPI-C event type code for a database shutdown event. -/
def DPI_EVENT_SHUTDOWN : Nat := 2

/-- ODPI-C event type code for a shutdown of any instance. -/
def DPI_EVENT_SHUTDOWN_ANY : Nat := 3

/-- ODPI-C event type code for deregistration of the subscription. -/
def DPI_EVENT_DEREG : Nat := 5

/-- ODPI-C event type code for an object (table) change. -/
def DPI_EVENT_OBJCHANGE : Nat := 6

/-- ODPI-C event type code for a query result change. -/
def DPI_EVENT_QUERYCHANGE : Nat := 7

/-- ODPI-C event type code for a message-queue (AQ) arrival. -/
def DPI_EVENT_AQ : Nat := 100

/-- ODPI-C operation code bits (`dpiOpCode`). -/
def DPI_OPCODE_ALL_OPS : Nat := 0

/-- ODPI-C operation bit: all rows affected. -/
def DPI_OPCODE_ALL_ROWS : Nat := 1

/-- ODPI-C operation bit: insert. -/
def DPI_OPCODE_INSERT : Nat := 2

/-- ODPI-C operation bit: update. -/
def DPI_OPCODE_UPDATE : Nat := 4

/-- ODPI-C operation bit: delete. -/
def DPI_OPCODE_DELETE : Nat := 8

/-- ODPI-C operation bit: alter. -/
def DPI_OPCODE_ALTER : Nat := 16

/-- ODPI-C operation bit: drop. -/
def DPI_OPCODE_DROP : Nat := 32

/-- ODPI-C operation bit: unknown operation. -/
def DPI_OPCODE_UNKNOWN : Nat := 64

/-- A foreign `dpiErrorInfo` record, reduced to the fields the subsystem
reads through `error_from_dpi_error`. -/
structure DpiErrorInfo where
  code : Int
  message : String
  deriving DecidableEq, Repr

/-- The subsystem's error type, reduced to the variants the subscription
code can produce.  `InternalError` is built by `EventType::from_dpi`;
`dpiError` is what `error_from_dpi_error` yields from a foreign error
record; `conversionError` models the `TryFromIntError` raised by
`try_into()?` on an out-of-range duration. -/
inductive Error where
  | InternalError (msg : String)
  | dpiError (info : DpiErrorInfo)
  | conversionError
  deriving DecidableEq, Repr

/-- Modelled from the spec: `error_from_dpi_error` (in `error.rs`, outside
the subscription sources) translates a foreign error record into the
subsystem's error type, carrying the external error's message and code
verbatim. -/
def error_from_dpi_error (info : DpiErrorInfo) : Error :=
  Error.dpiError info

/-- A foreign `dpiSubscrMessageRow` record: operation bits and a rowid
string (pointer plus length in the original). -/
structure DpiSubscrMessageRow where
  operation : Nat
  rowid : String

/-- A foreign `dpiSubscrMessageTable` record; `rows`/`numRows` model the
pointer-plus-count array of row records. -/
structure DpiSubscrMessageTable where
  operation : Nat
  name : String
  numRows : Nat
  rows : Nat → DpiSubscrMessageRow

/-- A foreign `dpiSubscrMessageQuery` record; `tables`/`numTables` model
the pointer-plus-count array of table records. -/
structure DpiSubscrMessageQuery where
  id : Nat
  operation : Nat
  numTables : Nat
  tables : Nat → DpiSubscrMessageTable

/-- A foreign `dpiSubscrMessage` record, with every field the two
`Event::new` decoders read.  `errorInfo = none` models the null pointer. -/
structure DpiSubscrMessage where
  eventType : Nat
  dbName : String
  numTables : Nat
  tables : Nat → DpiSubscrMessageTable
  numQueries : Nat
  queries : Nat → DpiSubscrMessageQuery
  txId : List Nat
  registered : Nat
  queueName : String
  consumerName : String
  errorInfo : Option DpiErrorInfo

/-- The `OpCode` bitflags struct of `src/subscr/mod.rs`: a set of
`dpiOpCode` bits. -/
structure OpCode where
  bits : Nat
  deriving DecidableEq, Repr

/-- The union of all bits named in the `bitflags!` block for `OpCode`
(`ALL_OPS | ALL_ROWS | INSERT | UPDATE | DELETE | ALTER | DROP | UNKNOWN`). -/
def OpCode.allDefinedBits : Nat :=
  DPI_OPCODE_ALL_OPS ||| DPI_OPCODE_ALL_ROWS ||| DPI_OPCODE_INSERT |||
  DPI_OPCODE_UPDATE ||| DPI_OPCODE_DELETE ||| DPI_OPCODE_ALTER |||
  DPI_OPCODE_DROP ||| DPI_OPCODE_UNKNOWN

/-- `OpCode::from_bits_truncate` as generated by `bitflags!`: keep the
defined bits of the input, silently drop the rest. -/
def OpCode.from_bits_truncate (b : Nat) : OpCode :=
  ⟨b &&& OpCode.allDefinedBits⟩

namespace cqn

/-- `cqn::EventType`. -/
inductive EventType where
  | ObjectChange
  | QueryResultChange
  | Startup
  | Shutdown
  | ShutdownAny
  | Deregister
  deriving DecidableEq, Repr

/-- `cqn::EventType::from_dpi`: the `match` over `dpiEventType` constants,
with the catch-all arm returning the descriptive internal error. -/
def EventType.from_dpi (val : Nat) : Except Error EventType :=
  if val = DPI_EVENT_OBJCHANGE then .ok .ObjectChange
  else if val = DPI_EVENT_QUERYCHANGE then .ok .QueryResultChange
  else if val = DPI_EVENT_STARTUP then .ok .Startup
  else if val = DPI_EVENT_SHUTDOWN then .ok .Shutdown
  else if val = DPI_EVENT_SHUTDOWN_ANY then .ok .ShutdownAny
  else if val = DPI_EVENT_DEREG then .ok .Deregister
  else .error (.InternalError ("Unsupported subscription event type " ++ toString val))

/-- `cqn::Row`. -/
structure Row where
  operation : OpCode
  rowid : String
  deriving DecidableEq, Repr

/-- `cqn::Row::from_dpi`. -/
def Row.from_dpi (row : DpiSubscrMessageRow) : Row :=
  { operation := OpCode.from_bits_truncate row.operation
    rowid := row.rowid }

/-- `cqn::Table`. -/
structure Table where
  operation : OpCode
  name : String
  rows : List Row
  deriving DecidableEq, Repr

/-- `cqn::Table::from_dpi`: the `for i in 0..numRows` push loop followed by
the field assignments. -/
def Table.from_dpi (table : DpiSubscrMessageTable) : Table :=
  { operation := OpCode.from_bits_truncate table.operation
    name := table.name
    rows := (List.range table.numRows).map (fun i => Row.from_dpi (table.rows i)) }

/-- `cqn::Query`. -/
structure Query where
  id : Nat
  operation : OpCode
  tables : List Table
  deriving DecidableEq, Repr

/-- `cqn::Query::from_dpi`: the `for i in 0..numTables` push loop followed
by the field assignments. -/
def Query.from_dpi (query : DpiSubscrMessageQuery) : Query :=
  { id := query.id
    operation := OpCode.from_bits_truncate query.operation
    tables := (List.range query.numTables).map (fun i => Table.from_dpi (query.tables i)) }

/-- `cqn::dpi_to_tables`. -/
def dpi_to_tables (tables : Nat → DpiSubscrMessageTable) (num : Nat) : List Table :=
  (List.range num).map (fun i => Table.from_dpi (tables i))

/-- `cqn::dpi_to_queries`. -/
def dpi_to_queries (queries : Nat → DpiSubscrMessageQuery) (num : Nat) : List Query :=
  (List.range num).map (fun i => Query.from_dpi (queries i))

/-- `cqn::Event`. -/
structure Event where
  event_type : EventType
  database : String
  tables : List Table
  queries : List Query
  transaction_id : List Nat
  registered : Bool
  deriving DecidableEq, Repr

/-- `cqn::Event::new`.  The source calls
`EventType::from_dpi(msg.eventType).unwrap()`; the `none` result models
the panic of that `unwrap` when the event type is not recognized. -/
def Event.new (msg : DpiSubscrMessage) : Option (Except Error Event) :=
  match msg.errorInfo with
  | none =>
    match EventType.from_dpi msg.eventType with
    | .ok et =>
      some (.ok
        { event_type := et
          database := msg.dbName
          tables := dpi_to_tables msg.tables msg.numTables
          queries := dpi_to_queries msg.queries msg.numQueries
          transaction_id := msg.txId
          registered := msg.registered != 0 })
    | .error _ => none
  | some info => some (.error (error_from_dpi_error info))

end cqn

namespace aq

/-- `aq::EventType`. -/
inductive EventType where
  | AQ
  | Deregister
  deriving DecidableEq, Repr

/-- `aq::EventType::from_dpi`. -/
def EventType.from_dpi (val : Nat) : Except Error EventType :=
  if val = DPI_EVENT_AQ then .ok .AQ
  else if val = DPI_EVENT_DEREG then .ok .Deregister
  else .error (.InternalError ("Unsupported subscription event type " ++ toString val))

/-- `aq::Event`. -/
structure Event where
  event_type : EventType
  queue_name : String
  consumer_name : String
  registered : Bool
  deriving DecidableEq, Repr

/-- `aq::Event::new`; as in the CQN case, `none` models the panic of the
`unwrap` on an unrecognized event type. -/
def Event.new (msg : DpiSubscrMessage) : Option (Except Error Event) :=
  match msg.errorInfo with
  | none =>
    match EventType.from_dpi msg.eventType with
    | .ok et =>
      some (.ok
        { event_type := et
          queue_name := msg.queueName
          consumer_name := msg.consumerName
          registered := msg.registered != 0 })
    | .error _ => none
  | some info => some (.error (error_from_dpi_error info))

end aq

/-- The tag of `subscr::Callback` (`enum Callback { CQN(..), AQ(..) }`).
The boxed closure payloads are opaque to every property proved here; the
trampoline's dispatch depends only on this tag, and invocations of the
closures are recorded in the `Invocation` trace below. -/
inductive Callback where
  | CQN
  | AQ
  deriving DecidableEq, Repr

/-- One invocation of a user closure by the trampoline, carrying the value
the closure received. -/
inductive Invocation where
  | cqnCall (arg : Except Error cqn.Event)
  | aqCall (arg : Except Error aq.Event)
  deriving Repr

/-- `callback_wrapper`: recover the tagged callback from the context,
decode the message with the decoder matching the tag and invoke the
closure with the decode result.  The returned list is the sequence of
closure invocations performed; it is empty when the decoder panicked
(`Event.new` returned `none`) before the closure could be called. -/
def callback_wrapper (context : Callback) (msg : DpiSubscrMessage) : List Invocation :=
  match context with
  | .CQN =>
    match cqn.Event.new msg with
    | some r => [Invocation.cqnCall r]
    | none => []
  | .AQ =>
    match aq.Event.new msg with
    | some r => [Invocation.aqCall r]
    | none => []

/-- `std::time::Duration`, reduced to the fields `submit` reads
(`as_secs` returns the whole-second part, here `secs`). -/
structure Duration where
  secs : Nat
  nanos : Nat
  deriving DecidableEq, Repr

/-- `u64 -> u32` `try_into()?`: ok for values below `2^32`, a conversion
error otherwise. -/
def tryIntoU32 (n : Nat) : Except Error Nat :=
  if n < 4294967296 then .ok n else .error .conversionError

/-- `GroupingClass` of `src/subscr/mod.rs`. -/
inductive GroupingClass where
  | Time (dur : Duration)
  deriving DecidableEq, Repr

/-- `GroupingType` of `src/subscr/mod.rs`. -/
inductive GroupingType where
  | Summary
  | Last
  deriving DecidableEq, Repr

/-- `SubscriptionForm` (its `namespace` field is spelled `namespace_`
because `namespace` is a Lean keyword; the QoS bits are an opaque `Nat`). -/
structure SubscriptionForm where
  namespace_ : Nat
  protocol : Nat
  callback : Option Callback
  recipient : Option String
  qos : Nat
  op_code : OpCode
  port : Nat
  timeout : Duration
  name : String
  ip_address : String
  grouping_class : Option GroupingClass
  grouping_type : Option GroupingType

/-- `SubscriptionForm::default`. -/
def SubscriptionForm.default : SubscriptionForm :=
  { namespace_ := 0
    protocol := 0
    callback := none
    recipient := none
    qos := 0
    op_code := ⟨0⟩
    port := 0
    timeout := ⟨0, 0⟩
    name := ""
    ip_address := ""
    grouping_class := none
    grouping_type := none }

/-- The sealed `Protocol` trait: `init_form` writes the namespace,
protocol, callback and recipient fields of a fresh form. -/
class Protocol (α : Type) where
  init_form : α → SubscriptionForm → SubscriptionForm

/-- `SubscriptionForm::new::<P>(protocol)`. -/
def SubscriptionForm.new {α : Type} [Protocol α] (p : α) : SubscriptionForm :=
  Protocol.init_form p SubscriptionForm.default

namespace cqn

/-- `cqn::Protocol`; the closure payload of the `Callback` variant is
opaque (see `RustOracle.Callback`). -/
inductive Protocol where
  | Callback
  | Mail (recipient : String)
  | PlSql (recipient : String)
  | Http (recipient : String)
  deriving DecidableEq, Repr

/-- `impl super::Protocol for cqn::Protocol { fn init_form }`.  Note that
the source sets `form.namespace = DPI_SUBSCR_NAMESPACE_AQ` (cqn.rs line
48) before matching on the variant. -/
def Protocol.init_form (p : Protocol) (form : SubscriptionForm) : SubscriptionForm :=
  let form := { form with namespace_ := DPI_SUBSCR_NAMESPACE_AQ }
  match p with
  | .Callback =>
    { form with protocol := DPI_SUBSCR_PROTO_CALLBACK
                callback := some RustOracle.Callback.CQN }
  | .Mail rec_ =>
    { form with protocol := DPI_SUBSCR_PROTO_MAIL, recipient := some rec_ }
  | .PlSql rec_ =>
    { form with protocol := DPI_SUBSCR_PROTO_PLSQL, recipient := some rec_ }
  | .Http rec_ =>
    { form with protocol := DPI_SUBSCR_PROTO_HTTP, recipient := some rec_ }

instance : RustOracle.Protocol Protocol := ⟨Protocol.init_form⟩

end cqn

namespace aq

/-- `aq::Protocol`; the closure payload of the `Callback` variant is
opaque. -/
inductive Protocol where
  | Callback
  | Mail (recipient : String)
  | PlSql (recipient : String)
  | Http (recipient : String)
  deriving DecidableEq, Repr

/-- `impl super::Protocol for aq::Protocol { fn init_form }`. -/
def Protocol.init_form (p : Protocol) (form : SubscriptionForm) : SubscriptionForm :=
  let form := { form with namespace_ := DPI_SUBSCR_NAMESPACE_AQ }
  match p with
  | .Callback =>
    { form with protocol := DPI_SUBSCR_PROTO_CALLBACK
                callback := some RustOracle.Callback.AQ }
  | .Mail rec_ =>
    { form with protocol := DPI_SUBSCR_PROTO_MAIL, recipient := some rec_ }
  | .PlSql rec_ =>
    { form with protocol := DPI_SUBSCR_PROTO_PLSQL, recipient := some rec_ }
  | .Http rec_ =>
    { form with protocol := DPI_SUBSCR_PROTO_HTTP, recipient := some rec_ }

instance : RustOracle.Protocol Protocol := ⟨Protocol.init_form⟩

end aq

/-- `Subscription`, reduced to the two pointer fields its lifecycle code
reads: the ODPI-C subscription handle (`none` is null) and the raw pointer
to the boxed `Callback` (`none` is null; when non-null, the tag stored
behind it). -/
structure Subscription where
  handle : Option Nat
  callback : Option Callback
  deriving DecidableEq, Repr

/-- The observable resource-management and external-call steps performed
by `submit`, `set_query` and `Drop for Subscription`. -/
inductive Action where
  | boxCallback
  | freeCallback
  | releaseSubscr (handle : Option Nat)
  | subscribeCall
  | prepareStmt
  | executeStmt
  | getQueryId
  | releaseStmt
  deriving DecidableEq, Repr

/-- The body of `Drop for Subscription::drop`: call `dpiSubscr_release` on
the handle (unconditionally; its result is discarded, which is why
`releaseFailed` is never read), then reconstruct and drop the boxed
callback when the callback pointer is non-null. -/
def Subscription.drop (s : Subscription) (_releaseFailed : Bool) : List Action :=
  [Action.releaseSubscr s.handle] ++
  (if s.callback.isSome then [Action.freeCallback] else [])

/-- A `Subscription` together with the drop-glue flag of the Rust runtime:
the language guarantees `Drop::drop` runs at most once per value, which
`dropped` records. -/
structure OwnedSubscription where
  sub : Subscription
  dropped : Bool

/-- Disposal (explicit `drop(x)` or scope exit) as executed by the Rust
drop glue: run `Subscription.drop` if and only if the value has not been
dropped before. -/
def OwnedSubscription.dispose (s : OwnedSubscription) (releaseFailed : Bool) :
    OwnedSubscription × List Action :=
  if s.dropped then (s, [])
  else ({ s with dropped := true }, s.sub.drop releaseFailed)

/-- The grouping-class translation inside `submit`: when a time grouping
class is configured, its duration undergoes the same `as_secs().try_into()?`
conversion as the timeout. -/
def groupingValueOf (form : SubscriptionForm) : Except Error Nat :=
  match form.grouping_class with
  | none => .ok 0
  | some (.Time dur) => tryIntoU32 dur.secs

/-- `SubscriptionForm::submit`, with the outcome of the external
`dpiConn_subscribe` call passed in (`.ok h` delivers the new handle,
`.error info` the foreign error record).  Mirrors the source's order:
build a `Subscription` with null handle and callback, box the callback if
present, convert the timeout (`?`), convert the grouping value (`?`), call
`dpiConn_subscribe` and either return the live subscription or propagate
the error.  On every early return the local `Subscription` is dropped,
which appends its drop trace. -/
def SubscriptionForm.submit (form : SubscriptionForm)
    (subscribeResult : Except DpiErrorInfo Nat) :
    Except Error Subscription × List Action :=
  let subscr : Subscription := { handle := none, callback := form.callback }
  let boxActs : List Action :=
    if form.callback.isSome then [Action.boxCallback] else []
  match tryIntoU32 form.timeout.secs with
  | .error e => (.error e, boxActs ++ subscr.drop false)
  | .ok _ =>
    match groupingValueOf form with
    | .error e => (.error e, boxActs ++ subscr.drop false)
    | .ok _ =>
      match subscribeResult with
      | .error info =>
        (.error (error_from_dpi_error info),
         boxActs ++ [Action.subscribeCall] ++ subscr.drop false)
      | .ok h =>
        (.ok { subscr with handle := some h },
         boxActs ++ [Action.subscribeCall])

/-- `Subscription::set_query`, with the outcomes of the three external
calls passed in: `prepareResult` is `dpiSubscr_prepareStmt` (a statement
handle on success — on failure no handle is created), `executeResult` is
`dpiStmt_execute`, `queryIdResult` is `dpiStmt_getSubscrQueryId`.  Mirrors
the source's `chkerr!` structure: a failing execute or query-id fetch runs
`dpiStmt_release(handle)` before returning the error, and the success path
releases the handle before returning the identifier. -/
def Subscription.set_query (_s : Subscription)
    (prepareResult : Except DpiErrorInfo Nat)
    (executeResult : Except DpiErrorInfo Nat)
    (queryIdResult : Except DpiErrorInfo Nat) :
    Except Error Nat × List Action :=
  match prepareResult with
  | .error e => (.error (error_from_dpi_error e), [Action.prepareStmt])
  | .ok _handle =>
    match executeResult with
    | .error e =>
      (.error (error_from_dpi_error e),
       [Action.prepareStmt, Action.executeStmt, Action.releaseStmt])
    | .ok _ =>
      match queryIdResult with
      | .error e =>
        (.error (error_from_dpi_error e),
         [Action.prepareStmt, Action.executeStmt, Action.getQueryId,
          Action.releaseStmt])
      | .ok query_id =>
        (.ok query_id,
         [Action.prepareStmt, Action.executeStmt, Action.getQueryId,
          Action.releaseStmt])

/-! Concrete fixtures used by counterexamples and witnesses. -/

/-- A zeroed foreign row record. -/
def defaultDpiRow : DpiSubscrMessageRow := ⟨0, ""⟩

/-- A zeroed foreign table record. -/
def defaultDpiTable : DpiSubscrMessageTable := ⟨0, "", 0, fun _ => defaultDpiRow⟩

/-- A zeroed foreign query record. -/
def defaultDpiQuery : DpiSubscrMessageQuery := ⟨0, 0, 0, fun _ => defaultDpiTable⟩

/-- A raw message with a null embedded-error field and the unrecognized
event-kind code 999 (recognized by neither decoder). -/
def msgUnknownKind : DpiSubscrMessage :=
  { eventType := 999
    dbName := ""
    numTables := 0
    tables := fun _ => defaultDpiTable
    numQueries := 0
    queries := fun _ => defaultDpiQuery
    txId := []
    registered := 0
    queueName := ""
    consumerName := ""
    errorInfo := none }

/-- A raw message carrying an embedded (non-null) error record. -/
def msgEmbeddedError : DpiSubscrMessage :=
  { msgUnknownKind with
    eventType := DPI_EVENT_OBJCHANGE
    errorInfo := some ⟨3113, "end-of-file on communication channel"⟩ }

/-- A well-formed deregistration message (null error field, recognized
kind for both decoders). -/
def msgDereg : DpiSubscrMessage :=
  { msgUnknownKind with eventType := DPI_EVENT_DEREG, registered := 0 }

/-- Whether an external call outcome succeeded. -/
def exceptOk {ε α : Type} (r : Except ε α) : Bool :=
  match r with
  | .ok _ => true
  | .error _ => false

/-- Whether an action is the `dpiSubscr_release` call. -/
def Action.isRelease : Action → Bool
  | .releaseSubscr _ => true
  | _ => false

/-- The result policy the claim states for `set_query`: propagate the
first failure among prepare, execute and identifier-fetch; return the
identifier when all three succeed.  (Spec wording, to be compared with
`Subscription.set_query`.) -/
def setQueryResultSpec (pr ex qid : Except DpiErrorInfo Nat) : Except Error Nat :=
  match pr with
  | .error e => .error (error_from_dpi_error e)
  | .ok _ =>
    match ex with
    | .error e => .error (error_from_dpi_error e)
    | .ok _ =>
      match qid with
      | .error e => .error (error_from_dpi_error e)
      | .ok q => .ok q

/-! Theorems settling the claims. -/

/-- C1: the claim says the CQN protocol family yields the external
system's change-notification namespace and the AQ family the
message-queue namespace, so the two families never map to the same
namespace value.  The code refutes this: `cqn::Protocol::init_form` sets
`DPI_SUBSCR_NAMESPACE_AQ` — identical to the AQ family and distinct from
the change-notification namespace `DPI_SUBSCR_NAMESPACE_DBCHANGE`. -/
theorem cqn_and_aq_forms_share_namespace :
    (∀ p : cqn.Protocol, (SubscriptionForm.new p).namespace_ = DPI_SUBSCR_NAMESPACE_AQ) ∧
    (∀ q : aq.Protocol, (SubscriptionForm.new q).namespace_ = DPI_SUBSCR_NAMESPACE_AQ) ∧
    DPI_SUBSCR_NAMESPACE_AQ ≠ DPI_SUBSCR_NAMESPACE_DBCHANGE := by
  refine ⟨fun p => ?_, fun q => ?_, by decide⟩
  · cases p <;> rfl
  · cases q <;> rfl

/-- C2: the claim says a null-error message with an unrecognized
event-kind code makes `Event::new` return a descriptive "unsupported
event kind" error to the caller rather than failing fatally.  The code
builds that descriptive error inside `EventType::from_dpi` but both
`Event::new` implementations call `.unwrap()` on it, so decoding such a
message panics (`none` in the model) and no error value ever reaches the
callback. -/
theorem unsupported_event_kind_panics :
    cqn.EventType.from_dpi 999 =
      .error (.InternalError "Unsupported subscription event type 999") ∧
    aq.EventType.from_dpi 999 =
      .error (.InternalError "Unsupported subscription event type 999") ∧
    cqn.Event.new msgUnknownKind = none ∧
    aq.Event.new msgUnknownKind = none :=
  ⟨rfl, rfl, rfl, rfl⟩

/-- C3: disposal performs the revocation (`dpiSubscr_release`) first and
frees the boxed closure afterwards, only when a callback token is held;
across a disposal and a repeated disposal the closure is freed exactly
once and the handle released exactly once; the trace does not depend on
whether the revocation failed. -/
theorem subscription_dispose_order_and_exactly_once
    (s : OwnedSubscription) (r1 r2 : Bool) (h : s.dropped = false) :
    (s.dispose r1).2 =
      [Action.releaseSubscr s.sub.handle] ++
        (if s.sub.callback.isSome then [Action.freeCallback] else []) ∧
    ((s.dispose r1).1.dispose r2).2 = [] ∧
    ((s.dispose r1).2 ++ ((s.dispose r1).1.dispose r2).2).count Action.freeCallback =
      (if s.sub.callback.isSome then 1 else 0) ∧
    ((s.dispose r1).2 ++ ((s.dispose r1).1.dispose r2).2).countP Action.isRelease = 1 ∧
    s.sub.drop r1 = s.sub.drop r2 := by
  have hd1 : (s.dispose r1) =
      ({ s with dropped := true }, s.sub.drop r1) := by
    simp [OwnedSubscription.dispose, h]
  refine ⟨?_, ?_, ?_, ?_, rfl⟩
  · rw [hd1]; rfl
  · rw [hd1]; simp [OwnedSubscription.dispose]
  · rw [hd1]
    simp only [OwnedSubscription.dispose, if_pos]
    cases hcb : s.sub.callback.isSome <;>
      simp [Subscription.drop, hcb, List.count_append, List.count_cons]
  · rw [hd1]
    simp only [OwnedSubscription.dispose, if_pos]
    cases hcb : s.sub.callback.isSome <;>
      simp [Subscription.drop, hcb, List.countP_append, List.countP_cons,
        Action.isRelease]

/-- A live subscription fixture used to instantiate the disposal theorem. -/
def ownedSubFixture : OwnedSubscription :=
  { sub := { handle := some 7, callback := some Callback.CQN }, dropped := false }

/-- Witness for the disposal theorem at a concrete live subscription
holding a callback token. -/
theorem subscription_dispose_order_witness :
    ownedSubFixture.dropped = false ∧
    ((ownedSubFixture.dispose true).2 =
      [Action.releaseSubscr ownedSubFixture.sub.handle] ++
        (if ownedSubFixture.sub.callback.isSome then [Action.freeCallback] else []) ∧
     ((ownedSubFixture.dispose true).1.dispose false).2 = [] ∧
     ((ownedSubFixture.dispose true).2 ++
        ((ownedSubFixture.dispose true).1.dispose false).2).count Action.freeCallback =
       (if ownedSubFixture.sub.callback.isSome then 1 else 0) ∧
     ((ownedSubFixture.dispose true).2 ++
        ((ownedSubFixture.dispose true).1.dispose false).2).countP Action.isRelease = 1 ∧
     ownedSubFixture.sub.drop true = ownedSubFixture.sub.drop false) :=
  ⟨rfl, subscription_dispose_order_and_exactly_once ownedSubFixture true false rfl⟩

/-- C10: `Drop for Subscription` always begins with `dpiSubscr_release`
on its handle — also when the handle is null — and frees the boxed
closure exactly when the callback pointer is non-null; and a subscription
produced by a successful `submit` has a non-null callback pointer exactly
when the submitted form was built from a `Callback` protocol variant. -/
theorem drop_release_unconditional_and_callback_provenance :
    (∀ (s : Subscription) (r : Bool),
      (s.drop r).head? = some (Action.releaseSubscr s.handle) ∧
      (Action.freeCallback ∈ s.drop r ↔ s.callback.isSome = true)) ∧
    (∀ (p : cqn.Protocol) (res : Except DpiErrorInfo Nat) (sub : Subscription),
      ((SubscriptionForm.new p).submit res).1 = .ok sub →
      (sub.callback.isSome = true ↔ p = cqn.Protocol.Callback)) ∧
    (∀ (q : aq.Protocol) (res : Except DpiErrorInfo Nat) (sub : Subscription),
      ((SubscriptionForm.new q).submit res).1 = .ok sub →
      (sub.callback.isSome = true ↔ q = aq.Protocol.Callback)) := by
  refine ⟨fun s r => ⟨rfl, ?_⟩, fun p res sub hok => ?_, fun q res sub hok => ?_⟩
  · cases hcb : s.callback.isSome <;> simp [Subscription.drop, hcb]
  · cases p <;> cases res <;>
      simp [SubscriptionForm.new, SubscriptionForm.submit, SubscriptionForm.default,
        cqn.Protocol.init_form, Protocol.init_form, tryIntoU32, groupingValueOf,
        Subscription.drop] at hok <;>
      simp [← hok]
  · cases q <;> cases res <;>
      simp [SubscriptionForm.new, SubscriptionForm.submit, SubscriptionForm.default,
        aq.Protocol.init_form, Protocol.init_form, tryIntoU32, groupingValueOf,
        Subscription.drop] at hok <;>
      simp [← hok]

/-- Witness for the provenance theorem: submitting a callback-protocol
form with a successful external call yields a subscription whose callback
pointer is non-null. -/
theorem drop_release_unconditional_witness :
    (((SubscriptionForm.new cqn.Protocol.Callback).submit (.ok 5)).1 =
      .ok { handle := some 5, callback := some Callback.CQN } ∧
    (({ handle := some 5, callback := some Callback.CQN } : Subscription).callback.isSome = true ↔
      cqn.Protocol.Callback = cqn.Protocol.Callback)) :=
  ⟨rfl,
   drop_release_unconditional_and_callback_provenance.2.1
     cqn.Protocol.Callback (.ok 5)
     { handle := some 5, callback := some Callback.CQN } rfl⟩

/-- C4: whenever `submit` returns an error — from the timeout or grouping
conversion, or from the external `dpiConn_subscribe` call — no
subscription is produced and the boxed callback, when one was allocated,
is freed on that path: every box action is matched by a free action. -/
theorem submit_error_path_frees_callback
    (form : SubscriptionForm) (res : Except DpiErrorInfo Nat) (e : Error)
    (h : (form.submit res).1 = .error e) :
    ((form.submit res).2.count Action.boxCallback =
      (form.submit res).2.count Action.freeCallback) ∧
    ((form.submit res).2.count Action.freeCallback =
      if form.callback.isSome then 1 else 0) ∧
    (∀ sub : Subscription, (form.submit res).1 ≠ .ok sub) := by
  refine ⟨?_, ?_, fun sub hsub => by rw [h] at hsub; exact Except.noConfusion hsub⟩ <;>
  · rcases ht : tryIntoU32 form.timeout.secs with e1 | v1 <;>
      rcases hg : groupingValueOf form with e2 | v2 <;>
      rcases res with info | hdl <;>
      rcases hcb : form.callback with _ | cb <;>
      simp_all [SubscriptionForm.submit, Subscription.drop, List.count_append,
        List.count_cons]

/-- A submission fixture: a callback-protocol form whose external
subscribe call fails. -/
def submitFailFixtureForm : SubscriptionForm :=
  SubscriptionForm.new cqn.Protocol.Callback

/-- The failing external outcome used with `submitFailFixtureForm`. -/
def submitFailFixtureRes : Except DpiErrorInfo Nat :=
  .error ⟨12345, "ORA-12345"⟩

/-- Witness for the submit-failure theorem at a concrete failing
submission of a callback-protocol form. -/
theorem submit_error_path_witness :
    (submitFailFixtureForm.submit submitFailFixtureRes).1 =
      .error (Error.dpiError ⟨12345, "ORA-12345"⟩) ∧
    (((submitFailFixtureForm.submit submitFailFixtureRes).2.count Action.boxCallback =
       (submitFailFixtureForm.submit submitFailFixtureRes).2.count Action.freeCallback) ∧
     ((submitFailFixtureForm.submit submitFailFixtureRes).2.count Action.freeCallback =
       if submitFailFixtureForm.callback.isSome then 1 else 0) ∧
     (∀ sub : Subscription,
       (submitFailFixtureForm.submit submitFailFixtureRes).1 ≠ .ok sub)) :=
  ⟨rfl,
   submit_error_path_frees_callback submitFailFixtureForm submitFailFixtureRes
     (Error.dpiError ⟨12345, "ORA-12345"⟩) rfl⟩

/-- C5: `set_query` propagates the first failure among prepare, execute
and identifier-fetch and returns the identifier on success; a statement
handle is created exactly when the prepare call succeeds, and on every
exit path a created handle is released exactly once, as the last step
before returning. -/
theorem set_query_first_failure_and_cleanup
    (s : Subscription) (pr ex qid : Except DpiErrorInfo Nat) :
    (s.set_query pr ex qid).1 = setQueryResultSpec pr ex qid ∧
    ((s.set_query pr ex qid).2.count Action.releaseStmt =
      if exceptOk pr then 1 else 0) ∧
    ((s.set_query pr ex qid).2.count Action.prepareStmt = 1) ∧
    (exceptOk pr = true →
      (s.set_query pr ex qid).2.getLast? = some Action.releaseStmt) := by
  rcases pr with e1 | h1 <;> rcases ex with e2 | n2 <;> rcases qid with e3 | q3 <;>
    simp [Subscription.set_query, setQueryResultSpec, exceptOk,
      List.count_cons, List.count_nil]

/-- Witness for the `set_query` theorem: a concrete call whose execute
step fails still releases the statement handle and propagates the execute
error. -/
theorem set_query_first_failure_witness :
    ((⟨some 7, none⟩ : Subscription).set_query (.ok 11) (.error ⟨904, "invalid identifier"⟩)
        (.ok 0)).1 = .error (Error.dpiError ⟨904, "invalid identifier"⟩) ∧
    ((⟨some 7, none⟩ : Subscription).set_query (.ok 11) (.error ⟨904, "invalid identifier"⟩)
        (.ok 0)).2.count Action.releaseStmt = 1 ∧
    exceptOk (.ok 11 : Except DpiErrorInfo Nat) = true ∧
    ((⟨some 7, none⟩ : Subscription).set_query (.ok 11) (.error ⟨904, "invalid identifier"⟩)
        (.ok 0)).2.getLast? = some Action.releaseStmt :=
  ⟨rfl, rfl, rfl,
   (set_query_first_failure_and_cleanup ⟨some 7, none⟩ (.ok 11)
      (.error ⟨904, "invalid identifier"⟩) (.ok 0)).2.2.2 rfl⟩

/-- Whether `cqn::EventType::from_dpi` recognizes the event-kind code. -/
def cqnRecognized (v : Nat) : Bool :=
  match cqn.EventType.from_dpi v with
  | .ok _ => true
  | .error _ => false

/-- Whether `aq::EventType::from_dpi` recognizes the event-kind code. -/
def aqRecognized (v : Nat) : Bool :=
  match aq.EventType.from_dpi v with
  | .ok _ => true
  | .error _ => false

/-- A message with a non-null embedded error, or a recognized event kind,
decodes without panicking (CQN decoder). -/
theorem cqn_event_new_isSome (msg : DpiSubscrMessage)
    (h : msg.errorInfo.isSome = true ∨ cqnRecognized msg.eventType = true) :
    (cqn.Event.new msg).isSome = true := by
  rcases hinfo : msg.errorInfo with _ | info
  · rcases h with h | h
    · simp [hinfo] at h
    · rcases hfd : cqn.EventType.from_dpi msg.eventType with e | et
      · simp [cqnRecognized, hfd] at h
      · simp [cqn.Event.new, hinfo, hfd]
  · simp [cqn.Event.new, hinfo]

/-- A message with a non-null embedded error, or a recognized event kind,
decodes without panicking (AQ decoder). -/
theorem aq_event_new_isSome (msg : DpiSubscrMessage)
    (h : msg.errorInfo.isSome = true ∨ aqRecognized msg.eventType = true) :
    (aq.Event.new msg).isSome = true := by
  rcases hinfo : msg.errorInfo with _ | info
  · rcases h with h | h
    · simp [hinfo] at h
    · rcases hfd : aq.EventType.from_dpi msg.eventType with e | et
      · simp [aqRecognized, hfd] at h
      · simp [aq.Event.new, hinfo, hfd]
  · simp [aq.Event.new, hinfo]

/-- C6: both decoders return an error exactly when the embedded error
field is non-null — the embedded record is surfaced through
`error_from_dpi_error` and no event is built — and with a null error
field and a recognized event-kind code they return a populated event. -/
theorem event_new_error_iff_embedded_error (msg : DpiSubscrMessage) :
    (∀ info, msg.errorInfo = some info →
      cqn.Event.new msg = some (.error (error_from_dpi_error info)) ∧
      aq.Event.new msg = some (.error (error_from_dpi_error info))) ∧
    (msg.errorInfo = none → cqnRecognized msg.eventType = true →
      ∃ ev : cqn.Event, cqn.Event.new msg = some (.ok ev) ∧
        cqn.EventType.from_dpi msg.eventType = .ok ev.event_type ∧
        ev.database = msg.dbName ∧
        ev.tables = cqn.dpi_to_tables msg.tables msg.numTables ∧
        ev.queries = cqn.dpi_to_queries msg.queries msg.numQueries ∧
        ev.transaction_id = msg.txId ∧
        ev.registered = (msg.registered != 0)) ∧
    (msg.errorInfo = none → aqRecognized msg.eventType = true →
      ∃ ev : aq.Event, aq.Event.new msg = some (.ok ev) ∧
        aq.EventType.from_dpi msg.eventType = .ok ev.event_type ∧
        ev.queue_name = msg.queueName ∧
        ev.consumer_name = msg.consumerName ∧
        ev.registered = (msg.registered != 0)) := by
  refine ⟨fun info hinfo => ?_, fun hnone hrec => ?_, fun hnone hrec => ?_⟩
  · exact ⟨by simp [cqn.Event.new, hinfo], by simp [aq.Event.new, hinfo]⟩
  · rcases hfd : cqn.EventType.from_dpi msg.eventType with e | et
    · simp [cqnRecognized, hfd] at hrec
    · exact ⟨{ event_type := et
               database := msg.dbName
               tables := cqn.dpi_to_tables msg.tables msg.numTables
               queries := cqn.dpi_to_queries msg.queries msg.numQueries
               transaction_id := msg.txId
               registered := msg.registered != 0 },
             by simp [cqn.Event.new, hnone, hfd], rfl, rfl, rfl, rfl, rfl, rfl⟩
  · rcases hfd : aq.EventType.from_dpi msg.eventType with e | et
    · simp [aqRecognized, hfd] at hrec
    · exact ⟨{ event_type := et
               queue_name := msg.queueName
               consumer_name := msg.consumerName
               registered := msg.registered != 0 },
             by simp [aq.Event.new, hnone, hfd], rfl, rfl, rfl, rfl⟩

/-- Witness for the error-iff-embedded-error theorem: a concrete message
with an embedded error decodes to that error under both decoders, and a
concrete deregistration message decodes to an event. -/
theorem event_new_error_iff_witness :
    msgEmbeddedError.errorInfo = some ⟨3113, "end-of-file on communication channel"⟩ ∧
    cqn.Event.new msgEmbeddedError =
      some (.error (error_from_dpi_error ⟨3113, "end-of-file on communication channel"⟩)) ∧
    aq.Event.new msgEmbeddedError =
      some (.error (error_from_dpi_error ⟨3113, "end-of-file on communication channel"⟩)) ∧
    (∃ ev : cqn.Event, cqn.Event.new msgDereg = some (.ok ev) ∧
      cqn.EventType.from_dpi msgDereg.eventType = .ok ev.event_type ∧
      ev.database = msgDereg.dbName ∧
      ev.tables = cqn.dpi_to_tables msgDereg.tables msgDereg.numTables ∧
      ev.queries = cqn.dpi_to_queries msgDereg.queries msgDereg.numQueries ∧
      ev.transaction_id = msgDereg.txId ∧
      ev.registered = (msgDereg.registered != 0)) :=
  ⟨rfl,
   ((event_new_error_iff_embedded_error msgEmbeddedError).1
     ⟨3113, "end-of-file on communication channel"⟩ rfl).1,
   ((event_new_error_iff_embedded_error msgEmbeddedError).1
     ⟨3113, "end-of-file on communication channel"⟩ rfl).2,
   (event_new_error_iff_embedded_error msgDereg).2.1 rfl rfl⟩

/-- C7: decoding a 32-bit operation-code pattern with
`OpCode::from_bits_truncate` preserves every defined bit of the input and
clears every bit outside the defined set; being a total function, it
never fails. -/
theorem opcode_truncate_keeps_defined_bits_only (b : Nat) (_h : b < 4294967296) :
    (∀ i : Nat, OpCode.allDefinedBits.testBit i = true →
      (OpCode.from_bits_truncate b).bits.testBit i = b.testBit i) ∧
    (∀ i : Nat, OpCode.allDefinedBits.testBit i = false →
      (OpCode.from_bits_truncate b).bits.testBit i = false) := by
  constructor <;> intro i hi <;>
    simp [OpCode.from_bits_truncate, Nat.testBit_land, hi]

/-- Witness for the truncating decode: the all-ones 32-bit pattern keeps
defined bit 1 (`INSERT`) and drops undefined bit 31. -/
theorem opcode_truncate_witness :
    (4294967295 : Nat) < 4294967296 ∧
    OpCode.allDefinedBits.testBit 1 = true ∧
    (OpCode.from_bits_truncate 4294967295).bits.testBit 1 = (4294967295 : Nat).testBit 1 ∧
    OpCode.allDefinedBits.testBit 31 = false ∧
    (OpCode.from_bits_truncate 4294967295).bits.testBit 31 = false :=
  ⟨by decide, by decide,
   (opcode_truncate_keeps_defined_bits_only 4294967295 (by decide)).1 1 (by decide),
   by decide,
   (opcode_truncate_keeps_defined_bits_only 4294967295 (by decide)).2 31 (by decide)⟩

/-- C8 counterexample: with a CQN-tagged context and a null-error message
whose event-kind code is unrecognized, the trampoline's decode panics and
the recovered closure is invoked zero times, not exactly once. -/
theorem callback_wrapper_skips_closure_on_unknown_kind :
    callback_wrapper Callback.CQN msgUnknownKind = [] ∧
    (callback_wrapper Callback.CQN msgUnknownKind).length ≠ 1 ∧
    callback_wrapper Callback.AQ msgUnknownKind = [] :=
  ⟨rfl, by decide, rfl⟩

/-- C8 as amended: provided the decode does not panic (the embedded error
field is non-null, or the event-kind code is recognized by the decoder
matching the context's tag), the tag selects the matching decoder and the
recovered closure is invoked exactly once, receiving the decode result. -/
theorem callback_wrapper_dispatches_once (context : Callback) (msg : DpiSubscrMessage)
    (h : msg.errorInfo.isSome = true ∨
      (context = Callback.CQN ∧ cqnRecognized msg.eventType = true) ∨
      (context = Callback.AQ ∧ aqRecognized msg.eventType = true)) :
    (callback_wrapper context msg).length = 1 ∧
    (∀ r, cqn.Event.new msg = some r → context = Callback.CQN →
      callback_wrapper context msg = [Invocation.cqnCall r]) ∧
    (∀ r, aq.Event.new msg = some r → context = Callback.AQ →
      callback_wrapper context msg = [Invocation.aqCall r]) := by
  cases context
  case CQN =>
    have hs : (cqn.Event.new msg).isSome = true := by
      apply cqn_event_new_isSome
      rcases h with h | ⟨_, h⟩ | ⟨h, _⟩
      · exact Or.inl h
      · exact Or.inr h
      · exact Callback.noConfusion h
    rcases ho : cqn.Event.new msg with _ | r
    · rw [ho] at hs; exact Bool.noConfusion hs
    · refine ⟨by simp [callback_wrapper, ho],
        fun r2 hr2 _ => by
          cases Option.some.inj hr2
          simp [callback_wrapper, ho],
        fun r2 _ hc => Callback.noConfusion hc⟩
  case AQ =>
    have hs : (aq.Event.new msg).isSome = true := by
      apply aq_event_new_isSome
      rcases h with h | ⟨h, _⟩ | ⟨_, h⟩
      · exact Or.inl h
      · exact Callback.noConfusion h
      · exact Or.inr h
    rcases ho : aq.Event.new msg with _ | r
    · rw [ho] at hs; exact Bool.noConfusion hs
    · refine ⟨by simp [callback_wrapper, ho],
        fun r2 _ hc => Callback.noConfusion hc,
        fun r2 hr2 _ => by
          cases Option.some.inj hr2
          simp [callback_wrapper, ho]⟩

/-- Witness for the amended trampoline theorem at a CQN-tagged context
and a concrete message carrying an embedded error. -/
theorem callback_wrapper_dispatch_witness :
    (msgEmbeddedError.errorInfo.isSome = true ∨
      (Callback.CQN = Callback.CQN ∧ cqnRecognized msgEmbeddedError.eventType = true) ∨
      (Callback.CQN = Callback.AQ ∧ aqRecognized msgEmbeddedError.eventType = true)) ∧
    ((callback_wrapper Callback.CQN msgEmbeddedError).length = 1 ∧
     (∀ r, cqn.Event.new msgEmbeddedError = some r → Callback.CQN = Callback.CQN →
       callback_wrapper Callback.CQN msgEmbeddedError = [Invocation.cqnCall r]) ∧
     (∀ r, aq.Event.new msgEmbeddedError = some r → Callback.CQN = Callback.AQ →
       callback_wrapper Callback.CQN msgEmbeddedError = [Invocation.aqCall r])) :=
  ⟨Or.inl rfl,
   callback_wrapper_dispatches_once Callback.CQN msgEmbeddedError (Or.inl rfl)⟩

/-- C9: every nested collection (tables under an event, queries under an
event, tables under a query, rows under a table) is decoded by reading
exactly `count` elements in array order: the result has length `count`, a
zero count yields the empty sequence, the `i`-th element is the decode of
the `i`-th record, and the result never depends on array entries at or
past `count` (no over-read). -/
theorem nested_collections_decode_exact_count
    (num : Nat) (f g : Nat → DpiSubscrMessageTable)
    (fq gq : Nat → DpiSubscrMessageQuery)
    (t : DpiSubscrMessageTable) (q : DpiSubscrMessageQuery) :
    (cqn.dpi_to_tables f num).length = num ∧
    cqn.dpi_to_tables f 0 = [] ∧
    (∀ i, i < num → (cqn.dpi_to_tables f num)[i]? = some (cqn.Table.from_dpi (f i))) ∧
    ((∀ i, i < num → f i = g i) → cqn.dpi_to_tables f num = cqn.dpi_to_tables g num) ∧
    (cqn.dpi_to_queries fq num).length = num ∧
    cqn.dpi_to_queries fq 0 = [] ∧
    (∀ i, i < num → (cqn.dpi_to_queries fq num)[i]? = some (cqn.Query.from_dpi (fq i))) ∧
    ((∀ i, i < num → fq i = gq i) →
      cqn.dpi_to_queries fq num = cqn.dpi_to_queries gq num) ∧
    ((cqn.Table.from_dpi t).rows.length = t.numRows) ∧
    (∀ i, i < t.numRows →
      (cqn.Table.from_dpi t).rows[i]? = some (cqn.Row.from_dpi (t.rows i))) ∧
    ((cqn.Query.from_dpi q).tables.length = q.numTables) ∧
    (∀ i, i < q.numTables →
      (cqn.Query.from_dpi q).tables[i]? = some (cqn.Table.from_dpi (q.tables i))) := by
  refine ⟨by simp [cqn.dpi_to_tables], rfl, fun i hi => ?_, fun hfg => ?_,
    by simp [cqn.dpi_to_queries], rfl, fun i hi => ?_, fun hfg => ?_,
    by simp [cqn.Table.from_dpi], fun i hi => ?_,
    by simp [cqn.Query.from_dpi], fun i hi => ?_⟩
  · simp [cqn.dpi_to_tables, List.getElem?_range, hi]
  · unfold cqn.dpi_to_tables
    exact List.map_congr_left fun a ha => by rw [hfg a (List.mem_range.mp ha)]
  · simp [cqn.dpi_to_queries, List.getElem?_range, hi]
  · unfold cqn.dpi_to_queries
    exact List.map_congr_left fun a ha => by rw [hfg a (List.mem_range.mp ha)]
  · simp [cqn.Table.from_dpi, List.getElem?_range, hi]
  · simp [cqn.Query.from_dpi, List.getElem?_range, hi]

/-- Witness for the nested-collection theorem at a concrete two-element
array. -/
theorem nested_collections_witness :
    (cqn.dpi_to_tables (fun _ => defaultDpiTable) 2).length = 2 ∧
    cqn.dpi_to_tables (fun _ => defaultDpiTable) 0 = [] ∧
    (cqn.dpi_to_tables (fun _ => defaultDpiTable) 2)[1]? =
      some (cqn.Table.from_dpi defaultDpiTable) :=
  ⟨(nested_collections_decode_exact_count 2 (fun _ => defaultDpiTable)
      (fun _ => defaultDpiTable) (fun _ => defaultDpiQuery) (fun _ => defaultDpiQuery)
      defaultDpiTable defaultDpiQuery).1,
   (nested_collections_decode_exact_count 0 (fun _ => defaultDpiTable)
      (fun _ => defaultDpiTable) (fun _ => defaultDpiQuery) (fun _ => defaultDpiQuery)
      defaultDpiTable defaultDpiQuery).2.1,
   (nested_collections_decode_exact_count 2 (fun _ => defaultDpiTable)
      (fun _ => defaultDpiTable) (fun _ => defaultDpiQuery) (fun _ => defaultDpiQuery)
      defaultDpiTable defaultDpiQuery).2.2.1 1 (by decide)⟩

end RustOracle
